import Mathlib

/-!
Shallow embedding of the terminology resolution and aggregation engine:
the local catalog resolver (`app/api/services/namaste.py`), the remote
ICD-11 resolver and token cache (`app/api/services/icd11.py`), and the
aggregation endpoint (`app/api/endpoints/search.py`).

Python values decoded from JSON are modelled by the `Json` inductive;
Python truthiness and the `or` operator are modelled explicitly, since
the source relies on them (`data.get(k, []) or ...`).
-/

namespace NamasteApp

/-- JSON values as decoded by Python's `json.load` / `response.json()`.
Objects are association lists with distinct keys (Python dicts). -/
inductive Json where
  | null
  | bool (b : Bool)
  | num (n : Int)
  | str (s : String)
  | arr (elts : List Json)
  | obj (fields : List (String × Json))

/-- Python `dict.get(k)` on an object: the value at the first matching key,
`none` when the key is absent.  Callers must only use this where the source
has already established the receiver is a dict (`.get` on a non-dict raises). -/
def Json.get : Json → String → Option Json
  | .obj fields, k => fields.lookup k
  | _, _ => none

/-- Python `dict.get(k, d)`: stored value when the key is present (even when
that value is `null`), the default `d` otherwise. -/
def Json.getOr (j : Json) (k : String) (d : Json) : Json :=
  (j.get k).getD d

/-- Python truthiness of a JSON value (`bool(x)`). -/
def Json.truthy : Json → Bool
  | .null => false
  | .bool b => b
  | .num n => n != 0
  | .str s => !s.isEmpty
  | .arr l => !l.isEmpty
  | .obj l => !l.isEmpty

/-- Python `a or b`: `a` when truthy, else `b`. -/
def pyOr (a b : Json) : Json :=
  if a.truthy then a else b

/-- Python `str(x)` for the values the source stringifies (synonym entries
that are not dicts).  Containers are abstracted by a placeholder: no claim
depends on the textual repr of a stringified list, only scalars occur in
the synonym positions the spec describes. -/
def Json.pyStr : Json → String
  | .str s => s
  | .num n => toString n
  | .bool true => "True"
  | .bool false => "False"
  | .null => "None"
  | .arr _ => "<list repr>"
  | .obj _ => "<dict repr>"

/-- True exactly on `Json.obj` values (Python `isinstance(x, dict)`). -/
def Json.isObj : Json → Bool
  | .obj _ => true
  | _ => false

/-- True exactly on `Json.str` values. -/
def Json.isStr : Json → Bool
  | .str _ => true
  | _ => false

/-- Python `s.lower()` (ASCII model): lower-case every character. -/
def pyLower (s : String) : String :=
  String.mk (s.data.map Char.toLower)

/-- Python `s.strip()`: remove leading and trailing whitespace. -/
def pyStrip (s : String) : String :=
  String.mk (((s.data.dropWhile Char.isWhitespace).reverse.dropWhile
    Char.isWhitespace).reverse)

/-! ## Local resolver — `NAMASTEService.search_namaste` (`app/api/services/namaste.py`) -/

/-- Python exceptions that the local search raises or handles:
`fastapi.HTTPException(status_code=...)`, `FileNotFoundError`, and any other
exception (`AttributeError`, `json.JSONDecodeError`, ...). -/
inductive PyExc where
  | httpException (status : Nat)
  | fileNotFoundError
  | otherError
deriving DecidableEq

/-- Outcome of `open(self.data_file)` followed by `json.load`:
the decoded document, a `FileNotFoundError`, or any other read/parse failure. -/
inductive LoadResult where
  | ok (data : Json)
  | fileNotFound
  | otherError

/-- Modelled from the spec: the `NAMASTETerm` record shape
(`app.api.models.common` is not among the provided sources; §3 and §6 of the
spec give the fields).  Field values are carried verbatim, without validation;
`term` is a `String` because the source has already applied `.lower()` to it
by construction time. -/
structure NAMASTETerm where
  id : Json
  term : String
  term_hindi : Json
  category : Json
  subcategory : Json
  ayush_system : Json
  description : Json
  synonyms : Json

/-- Python `query.lower() in term.lower()`: case-insensitive substring test. -/
def lowerIn (query term : String) : Bool :=
  decide ((pyLower query).toList <:+: (pyLower term).toList)

/-- Construction of the `NAMASTETerm` from a catalog item, as in the
`results.append(NAMASTETerm(...))` call of `search_namaste`. -/
def mkNamasteTerm (item : Json) (term : String) (system : Json) : NAMASTETerm :=
  { id := item.getOr "id" (.str "")
    term := term
    term_hindi := item.getOr "term_hindi" .null
    category := item.getOr "category" (.str "")
    subcategory := item.getOr "subcategory" .null
    ayush_system := system
    description := item.getOr "description" .null
    synonyms := item.getOr "synonyms" (.arr []) }

/-- One iteration of the `for item in data.get("results", [])` loop:
`.ok (some t)` when the item matches and is appended, `.ok none` when it does
not match, `.error ()` when the Python body raises (item is not a dict, the
`term` value is not a string, or — only when a filter is given and the query
matched — the `system` value is not a string; the `and`/`or` short-circuit
order of the source is preserved). -/
def processItem (query : String) (ayush_system : Option String) (item : Json) :
    Except Unit (Option NAMASTETerm) :=
  match item with
  | .obj _ =>
    match item.getOr "term" (.str ""), item.getOr "system" (.str "") with
    | .str term, systemJ =>
      if lowerIn query term then
        match ayush_system with
        | none => .ok (some (mkNamasteTerm item term systemJ))
        | some f =>
          match systemJ with
          | .str system =>
            if pyLower system == pyLower f then
              .ok (some (mkNamasteTerm item term (.str system)))
            else .ok none
          | _ => .error ()
      else .ok none
    | _, _ => .error ()
  | _ => .error ()

/-- The whole matching loop over the catalog items, in order; the first raise
aborts the loop (and, in the source, the whole search). -/
def processItems (query : String) (ayush_system : Option String) :
    List Json → Except Unit (List NAMASTETerm)
  | [] => .ok []
  | item :: rest =>
    match processItem query ayush_system item with
    | .error e => .error e
    | .ok none => processItems query ayush_system rest
    | .ok (some t) =>
      match processItems query ayush_system rest with
      | .error e => .error e
      | .ok ts => .ok (t :: ts)

/-- The fallback record returned on `FileNotFoundError`
(the `return [NAMASTETerm(id="NAM001", term=query, ...)]` literal). -/
def fallbackTerm (query : String) : NAMASTETerm :=
  { id := .str "NAM001"
    term := query
    term_hindi := .str "अनुवाद"
    category := .str "Disease"
    subcategory := .str "Fever"
    ayush_system := .str "Ayurveda"
    description := .str "Fallback mock: traditional terminology example."
    synonyms := .arr [.str "variant1", .str "variant2"] }

/-- Body of the `try:` block of `search_namaste`, before any handler runs:
load, iterate, and `raise HTTPException(404)` when no item matched.
Iterating a non-list `results` value, or calling `.get` on a non-dict
document, raises before any record is produced. -/
def search_namaste_body (load : LoadResult) (query : String)
    (ayush_system : Option String) : Except PyExc (List NAMASTETerm) :=
  match load with
  | .fileNotFound => .error .fileNotFoundError
  | .otherError => .error .otherError
  | .ok data =>
    match data with
    | .obj _ =>
      match data.getOr "results" (.arr []) with
      | .arr items =>
        match processItems query ayush_system items with
        | .error _ => .error .otherError
        | .ok results =>
          if results.isEmpty then .error (.httpException 404) else .ok results
      | _ => .error .otherError
    | _ => .error .otherError

/-- `NAMASTEService.search_namaste` with its handlers: `except FileNotFoundError`
returns the fallback list; `except Exception` re-raises `HTTPException(500)`.
Note the `raise HTTPException(404)` of the body sits inside the same `try`,
so it is caught by `except Exception` and leaves as a 500. -/
def search_namaste (load : LoadResult) (query : String)
    (ayush_system : Option String) : Except PyExc (List NAMASTETerm) :=
  match search_namaste_body load query ayush_system with
  | .ok r => .ok r
  | .error .fileNotFoundError => .ok [fallbackTerm query]
  | .error _ => .error (.httpException 500)

/-! ## Remote resolver — `ICD11Service` (`app/api/services/icd11.py`) -/

/-- Outcome of the outbound `httpx` POST of the token exchange:
a transport failure (`httpx.RequestError`) or a status plus decoded body. -/
inductive ExchangeResult where
  | networkError
  | response (status : Nat) (body : Json)

/-- Body of `get_token` past the cache check: credential check, the exchange,
status check, `token_data.get("access_token")` and the truthiness test
`if not token` before caching.  Every failure path of the source raises
(`HTTPException(500)` or an uncaught decode/attribute error), collapsed here to
`.error ()`; success returns the token and the updated `_token_cache`. -/
def fetch_token (credsOk : Bool) (exchange : ExchangeResult) :
    Except Unit (Json × Option Json) :=
  if !credsOk then .error ()
  else
    match exchange with
    | .networkError => .error ()
    | .response status body =>
      if status != 200 then .error ()
      else
        match body with
        | .obj _ =>
          let token := body.getOr "access_token" .null
          if token.truthy then .ok (token, some token) else .error ()
        | _ => .error ()

/-- `ICD11Service.get_token`: `if self._token_cache: return self._token_cache`,
else fetch and cache.  The cache state is threaded explicitly (`none` models a
fresh service instance). -/
def get_token (credsOk : Bool) (exchange : ExchangeResult)
    (cache : Option Json) : Except Unit (Json × Option Json) :=
  match cache with
  | some t => if t.truthy then .ok (t, some t) else fetch_token credsOk exchange
  | none => fetch_token credsOk exchange

/-- Modelled from the spec: the `ICD11Term` record shape
(`app.api.models.common` is not among the provided sources; §3 gives the
fields).  Values are carried verbatim from the response item. -/
structure ICD11Term where
  id : Json
  uri : Json
  code : Json
  title : Json
  definition : Json
  parent : Json
  children : Json
  synonyms : List Json

/-- Title extraction of the normalization loop:
`if isinstance(item.get("title"), dict): title = item["title"].get("@value", "")`
`else: title = item.get("title", "") or item.get("name", "")`. -/
def resolveTitle (item : Json) : Json :=
  match item.get "title" with
  | some (.obj tf) => (Json.obj tf).getOr "@value" (.str "")
  | _ => pyOr (item.getOr "title" (.str "")) (item.getOr "name" (.str ""))

/-- Definition extraction: same structured/string dual handling, defaulting
to the empty string. -/
def resolveDefinition (item : Json) : Json :=
  match item.get "definition" with
  | some (.obj df) => (Json.obj df).getOr "@value" (.str "")
  | _ => item.getOr "definition" (.str "")

/-- The `for syn in synonym_data` loop.  A dict entry reads
`syn.get("label", {}).get("@value", "")` — when the stored `label` value is
not a dict, the second `.get` raises (`.error ()`); a non-dict entry is
stringified with `str(syn)`. -/
def parseSynonyms : List Json → Except Unit (List Json)
  | [] => .ok []
  | syn :: rest =>
    match syn with
    | .obj _ =>
      match syn.getOr "label" (.obj []) with
      | .obj lf =>
        match parseSynonyms rest with
        | .error e => .error e
        | .ok ss => .ok ((Json.obj lf).getOr "@value" (.str "") :: ss)
      | _ => .error ()
    | _ =>
      match parseSynonyms rest with
      | .error e => .error e
      | .ok ss => .ok (Json.str syn.pyStr :: ss)

/-- `synonym_data = item.get("synonym", []) or item.get("synonyms", [])`
guarded by `isinstance(synonym_data, list)` (a non-list leaves `synonyms`
empty without raising). -/
def resolveSynonyms (item : Json) : Except Unit (List Json) :=
  match pyOr (item.getOr "synonym" (.arr [])) (item.getOr "synonyms" (.arr [])) with
  | .arr l => parseSynonyms l
  | _ => .ok []

/-- One iteration of the `for item in entities` loop: compute title,
definition and synonyms (in source order — the synonym loop runs, and can
raise, before the `if title:` test), then either append the `ICD11Term` or
drop the record when the title is falsy.  A non-dict item raises at the first
`item.get`. -/
def parseICD11Item (item : Json) : Except Unit (Option ICD11Term) :=
  match item with
  | .obj _ =>
    let title := resolveTitle item
    let definition := resolveDefinition item
    match resolveSynonyms item with
    | .error e => .error e
    | .ok synonyms =>
      if title.truthy then
        .ok (some
          { id := pyOr (item.getOr "id" (.str "")) (item.getOr "@id" (.str ""))
            uri := pyOr (item.getOr "uri" (.str ""))
                    (pyOr (item.getOr "id" (.str "")) (item.getOr "@id" (.str "")))
            code := pyOr (item.getOr "theCode" (.str "")) (item.getOr "code" (.str ""))
            title := title
            definition := definition
            parent := item.getOr "parent" (.str "")
            children := item.getOr "children" (.arr [])
            synonyms := synonyms })
      else .ok none
  | _ => .error ()

/-- The whole `for item in entities` loop: parsed terms in entity order,
plus a flag recording whether the loop raised (the raise keeps the terms
appended so far — `results` lives outside the endpoint loop). -/
def normalizeEntities : List Json → List ICD11Term × Bool
  | [] => ([], false)
  | item :: rest =>
    match parseICD11Item item with
    | .error _ => ([], true)
    | .ok none => normalizeEntities rest
    | .ok (some t) =>
      let (ts, threw) := normalizeEntities rest
      (t :: ts, threw)

/-- The entity-list extraction
`data.get("destinationEntities", []) or data.get("entities", []) or`
`data.get("searchResults", []) or data.get("results", [])` —
Python `or` chaining, so the first *truthy* (non-empty) value wins. -/
def extractEntities (data : Json) : Json :=
  pyOr (data.getOr "destinationEntities" (.arr []))
    (pyOr (data.getOr "entities" (.arr []))
      (pyOr (data.getOr "searchResults" (.arr []))
        (data.getOr "results" (.arr []))))

/-- Processing of one HTTP-200 body: `.get` on a non-dict document raises;
iterating a non-list entity value raises unless it is an empty string or an
empty dict (zero iterations), and a non-empty string or dict yields string
elements whose first `.get` raises before anything is appended. -/
def normalizeBody (data : Json) : List ICD11Term × Bool :=
  match data with
  | .obj _ =>
    match extractEntities data with
    | .arr items => normalizeEntities items
    | .str s => if s.isEmpty then ([], false) else ([], true)
    | .obj fields => if fields.isEmpty then ([], false) else ([], true)
    | _ => ([], true)
  | _ => ([], true)

/-- Outcome of one outbound GET against an endpoint candidate:
transport failure (`httpx.RequestError`) or status plus decoded body. -/
inductive HttpResult where
  | transportError
  | response (status : Nat) (body : Json)

/-- The `for url in endpoints_to_try` loop: a 200 response is normalized and,
when normalization completes, the loop `break`s; a raise inside the body
keeps the partial results and `continue`s to the next candidate; non-200
responses and transport errors are logged and skipped. -/
def probeLoop : List HttpResult → List ICD11Term
  | [] => []
  | .transportError :: rest => probeLoop rest
  | .response status body :: rest =>
    if status = 200 then
      let (ts, threw) := normalizeBody body
      if threw then ts ++ probeLoop rest else ts
    else probeLoop rest

/-- The fixed, ordered endpoint URL variants of `search_icd11`. -/
def endpoints_to_try (base : String) : List String :=
  [base ++ "/mms/search",
   base ++ "/search",
   base ++ "/mms/flexisearch",
   base ++ "/release/11/2024-01/mms/search"]

/-- `ICD11Service.search_icd11`: empty-after-strip queries return `[]` with no
network call; a failed token acquisition is swallowed by the outer
`except Exception` into `[]`; otherwise the candidates are probed in order,
each URL answered by the network environment `net`. -/
def search_icd11 (query : String) (token : Except Unit Json) (base : String)
    (net : String → HttpResult) : List ICD11Term :=
  if query = "" ∨ pyStrip query = "" then []
  else
    match token with
    | .error _ => []
    | .ok _ => probeLoop ((endpoints_to_try base).map net)

/-! ## Aggregator — `search_terms` (`app/api/endpoints/search.py`) -/

/-- Modelled from the spec: the `SearchType` enum of `app.api.models.common`
(values `namaste`, `icd11`, `both`; §6). -/
inductive SearchType where
  | namaste | icd11 | both
deriving DecidableEq

/-- The `status` values of the response envelope. -/
inductive SearchStatus where
  | success | no_results | error
deriving DecidableEq

/-- The response envelope dict built by `search_terms`. -/
structure SearchResponse where
  query : String
  source : SearchType
  namaste_results : List NAMASTETerm
  icd11_results : List ICD11Term
  total_results : Nat
  search_time_ms : Nat
  status : SearchStatus
  message : Option String

/-- The guarded NAMASTE block of `search_terms`: runs when the scope includes
NAMASTE; every handler — `HTTPException` with status 404, any other
`HTTPException`, and the generic `except Exception` — assigns `[]`. -/
def namasteBlock (source : SearchType)
    (outcome : Except PyExc (List NAMASTETerm)) : List NAMASTETerm :=
  if source = .namaste ∨ source = .both then
    match outcome with
    | .ok r => r
    | .error _ => []
  else []

/-- The guarded ICD-11 block of `search_terms`: runs when the scope includes
ICD-11; its `except Exception` handler assigns `[]`. -/
def icd11Block (source : SearchType)
    (outcome : Except PyExc (List ICD11Term)) : List ICD11Term :=
  if source = .icd11 ∨ source = .both then
    match outcome with
    | .ok r => r
    | .error _ => []
  else []

/-- The `search_terms` endpoint.  The two sub-searches are passed in as their
outcomes (value returned, or exception raised).  `orchFailure` models the
outer last-resort `except Exception` around everything outside the two
per-source guards: `some msg` means an unexpected failure escaped them,
producing the error envelope; elapsed wall-clock time is an input. -/
def search_terms (q : String) (source : SearchType)
    (namasteOutcome : Except PyExc (List NAMASTETerm))
    (icdOutcome : Except PyExc (List ICD11Term))
    (elapsed : Nat) (orchFailure : Option String) : SearchResponse :=
  match orchFailure with
  | some msg =>
    { query := q, source := source, namaste_results := [], icd11_results := []
      total_results := 0, search_time_ms := elapsed
      status := .error, message := some ("Search failed: " ++ msg) }
  | none =>
    let namaste_results := namasteBlock source namasteOutcome
    let icd11_results := icd11Block source icdOutcome
    let total := namaste_results.length + icd11_results.length
    { query := q, source := source
      namaste_results := namaste_results, icd11_results := icd11_results
      total_results := total, search_time_ms := elapsed
      status := if total = 0 then .no_results else .success
      message :=
        if total = 0 then
          some ("No results found for " ++ q ++ " in the selected sources")
        else none }

/-! ## Derived predicates and concrete inputs used by the verification -/

/-- The parsed record a single entity item contributes: `some` when kept,
`none` when dropped or when parsing raises. -/
def parsedTerm (item : Json) : Option ICD11Term :=
  match parseICD11Item item with
  | .ok o => o
  | .error _ => none

/-- True when parsing the entity item does not raise. -/
def parseOk (item : Json) : Bool :=
  match parseICD11Item item with
  | .ok _ => true
  | .error _ => false

/-- Well-formedness of a local catalog item: a dict whose `term` and `system`
values are strings (the shape §6 of the spec gives the catalog file). -/
def nsWellFormed (item : Json) : Bool :=
  item.isObj
    && (item.getOr "term" (.str "")).isStr
    && (item.getOr "system" (.str "")).isStr

/-- The records an empty query keeps: every catalog record that passes the
category filter (the query test is vacuous for the empty string). -/
def emptyQueryMatch (ayush_system : Option String) (item : Json) :
    Option NAMASTETerm :=
  match item with
  | .obj _ =>
    match item.getOr "term" (.str ""), item.getOr "system" (.str "") with
    | .str term, .str system =>
      match ayush_system with
      | none => some (mkNamasteTerm item term (.str system))
      | some f =>
        if pyLower system == pyLower f then
          some (mkNamasteTerm item term (.str system))
        else none
    | _, _ => none
  | _ => none

/-- A catalog record with display name `Fever` and system `Ayurveda`. -/
def feverItem : Json :=
  .obj [("id", .str "NAM001"), ("term", .str "Fever"), ("system", .str "Ayurveda")]

/-- A catalog record with display name `Asana` and system `Yoga`. -/
def yogaItem : Json :=
  .obj [("id", .str "NAM002"), ("term", .str "Asana"), ("system", .str "Yoga")]

/-- A catalog document holding only the `Fever` record. -/
def feverCatalog : Json := .obj [("results", .arr [feverItem])]

/-- A catalog document holding the `Fever` and `Asana` records. -/
def twoCatalog : Json := .obj [("results", .arr [feverItem, yogaItem])]

/-- A remote entity with a plain-string title `X`. -/
def c1item : Json := .obj [("title", .str "X"), ("id", .str "1")]

/-- A 200 body with a present-but-empty `destinationEntities` and a non-empty
`entities` list. -/
def c1body : Json :=
  .obj [("destinationEntities", .arr []), ("entities", .arr [c1item])]

/-- The canonical record parsed from `c1item`. -/
def c1term : ICD11Term :=
  { id := .str "1", uri := .str "1", code := .str "", title := .str "X"
    definition := .str "", parent := .str "", children := .arr [], synonyms := [] }

/-- A 200 body whose only entity list lives under `searchResults`. -/
def w1body : Json := .obj [("searchResults", .arr [c1item])]

/-- A remote entity with title `A` and nothing else. -/
def entityA : Json := .obj [("title", .str "A")]

/-- A remote entity with no title and a synonym entry whose `label` value is a
plain string — `syn.get("label", \x7b\x7d).get("@value", "")` raises on it. -/
def badSynonymItem : Json :=
  .obj [("synonym", .arr [.obj [("label", .str "x")]])]

/-- A remote entity with title `C` and nothing else. -/
def entityC : Json := .obj [("title", .str "C")]

/-- A remote entity with a structured title carrying `@value = "X"`. -/
def structTitleItem : Json :=
  .obj [("title", .obj [("@value", .str "X")]), ("id", .str "1")]

/-- A remote entity with neither `title` nor `name`. -/
def noTitleItem : Json := .obj [("id", .str "7")]

/-- The canonical record parsed from `entityA`. -/
def entityATerm : ICD11Term :=
  { id := .str "", uri := .str "", code := .str "", title := .str "A"
    definition := .str "", parent := .str "", children := .arr [], synonyms := [] }

/-- The canonical record parsed from `entityC`. -/
def entityCTerm : ICD11Term :=
  { id := .str "", uri := .str "", code := .str "", title := .str "C"
    definition := .str "", parent := .str "", children := .arr [], synonyms := [] }

/-- A 200 body whose entity list raises midway: `entityA` parses, then
`badSynonymItem` raises. -/
def throwingBody : Json := .obj [("destinationEntities", .arr [entityA, badSynonymItem])]

/-- A 200 body that parses cleanly to exactly one entity. -/
def cleanBody : Json := .obj [("entities", .arr [entityC])]

/-- A token exchange answering 200 with `access_token = "tokenA"`. -/
def exchangeA : ExchangeResult :=
  .response 200 (.obj [("access_token", .str "tokenA")])

/-- A token exchange answering 200 with `access_token = "tokenB"`. -/
def exchangeB : ExchangeResult :=
  .response 200 (.obj [("access_token", .str "tokenB")])

/-! ## Theorems -/

/-- Claim C1, counterexample: with `destinationEntities` present but empty and
`entities` non-empty, the normalization does not take the empty
higher-priority list — the Python `or` chain skips falsy values, so the
entity under `entities` is extracted and parsed. -/
theorem icd11_empty_priority_key_counterexample :
    c1body.get "destinationEntities" = some (.arr [])
    ∧ extractEntities c1body = .arr [c1item]
    ∧ extractEntities c1body ≠ .arr []
    ∧ (normalizeBody c1body).1 = [c1term] := by
  refine ⟨rfl, rfl, ?_, rfl⟩
  intro hc
  rw [show extractEntities c1body = .arr [c1item] from rfl] at hc
  injection hc with h
  exact List.noConfusion h

/-- Claim C1, amended: the entity list is the first *truthy* (present and
non-empty) value among `destinationEntities`, `entities`, `searchResults`,
`results`, checked in that order; falsy (absent or empty) values fall
through, and when all four are falsy the (falsy) value under `results` — or
the empty-list default — is used. -/
theorem icd11_entity_key_first_truthy (data : Json) :
    ((data.getOr "destinationEntities" (.arr [])).truthy = true →
      extractEntities data = data.getOr "destinationEntities" (.arr []))
    ∧ ((data.getOr "destinationEntities" (.arr [])).truthy = false →
       (data.getOr "entities" (.arr [])).truthy = true →
      extractEntities data = data.getOr "entities" (.arr []))
    ∧ ((data.getOr "destinationEntities" (.arr [])).truthy = false →
       (data.getOr "entities" (.arr [])).truthy = false →
       (data.getOr "searchResults" (.arr [])).truthy = true →
      extractEntities data = data.getOr "searchResults" (.arr []))
    ∧ ((data.getOr "destinationEntities" (.arr [])).truthy = false →
       (data.getOr "entities" (.arr [])).truthy = false →
       (data.getOr "searchResults" (.arr [])).truthy = false →
      extractEntities data = data.getOr "results" (.arr [])) := by
  unfold extractEntities pyOr
  refine ⟨fun h1 => ?_, fun h1 h2 => ?_, fun h1 h2 h3 => ?_, fun h1 h2 h3 => ?_⟩ <;>
    simp [h1]
  · simp [h2]
  · simp [h2, h3]
  · simp [h2, h3]

/-- Claim C1, witness for the amended statement: a body whose only non-empty
entity list sits under `searchResults` has its entities taken from there. -/
theorem icd11_entity_key_first_truthy_witness :
    extractEntities w1body = Json.arr [c1item] :=
  ((icd11_entity_key_first_truthy w1body).2.2.1 rfl rfl rfl).trans rfl

/-- Claim C2: on a successfully loaded catalog with zero matches, the body of
`search_namaste` does raise the distinguishable `HTTPException(404)` — but
that raise happens inside the function's own `try`, whose `except Exception`
handler re-raises `HTTPException(500)`.  The orchestrator therefore never
sees the 404 (its 404 branch is dead code), though its guard still converts
the 500 into an empty list and a non-error envelope. -/
theorem namaste_notfound_swallowed_to_500 :
    search_namaste_body (.ok feverCatalog) "xyz" none = .error (.httpException 404)
    ∧ search_namaste (.ok feverCatalog) "xyz" none = .error (.httpException 500)
    ∧ search_namaste (.ok feverCatalog) "xyz" none ≠ .error (.httpException 404)
    ∧ (search_terms "xyz" .both (search_namaste (.ok feverCatalog) "xyz" none)
        (.ok []) 0 none).namaste_results = []
    ∧ (search_terms "xyz" .both (search_namaste (.ok feverCatalog) "xyz" none)
        (.ok []) 0 none).status ≠ SearchStatus.error := by
  refine ⟨rfl, rfl, ?_, rfl, ?_⟩
  · intro hc
    rw [show search_namaste (.ok feverCatalog) "xyz" none
          = .error (.httpException 500) from rfl] at hc
    injection hc with h
    exact absurd h (by decide)
  · intro hc
    exact SearchStatus.noConfusion hc

/-- Claim C3, counterexample: endpoint #1 returns HTTP 200 but its body
raises midway through normalization (one entity parses, the next has a
malformed synonym label), so the loop keeps the partial result and continues;
endpoint #2 also returns 200 and its entity is appended — the final result
merges entities across two endpoints and is not the first 200 endpoint's
result alone. -/
theorem icd11_probe_merge_counterexample :
    probeLoop [.response 200 throwingBody, .response 200 cleanBody]
      = [entityATerm, entityCTerm]
    ∧ (normalizeBody throwingBody) = ([entityATerm], true)
    ∧ (normalizeBody cleanBody) = ([entityCTerm], false)
    ∧ probeLoop [.response 200 throwingBody, .response 200 cleanBody]
        ≠ (normalizeBody throwingBody).1 := by
  refine ⟨rfl, rfl, rfl, ?_⟩
  intro hc
  exact absurd (congrArg List.length hc) (by decide)

/-- Claim C3, amended: candidates are probed strictly in order; transport
errors and non-200 statuses are skipped; the loop stops at the first HTTP 200
response *whose body normalizes without raising*, returning exactly its
entities; a 200 body that raises midway contributes its already-parsed
records and probing continues (which is how entities can merge across
endpoints).  In particular, endpoint #1 answering 500 and endpoint #2
answering 200 with one valid entity yields exactly that one entity. -/
theorem icd11_probe_order (rest rest2 : List HttpResult) (status : Nat)
    (body errBody : Json) :
    probeLoop (.transportError :: rest) = probeLoop rest
    ∧ (status ≠ 200 → probeLoop (.response status body :: rest) = probeLoop rest)
    ∧ ((normalizeBody body).2 = false →
        probeLoop (.response 200 body :: rest) = (normalizeBody body).1)
    ∧ probeLoop (.response 500 errBody :: .response 200 cleanBody :: rest2)
        = [entityCTerm] := by
  refine ⟨rfl, fun h => ?_, fun h => ?_, ?_⟩
  · simp [probeLoop, h]
  · rcases hnb : normalizeBody body with ⟨ts, threw⟩
    rw [hnb] at h
    simp at h
    simp [probeLoop, hnb, h]
  · simp [probeLoop]
    rfl

/-- Claim C3, witness for the amended statement: a 404 endpoint is skipped and
the following clean 200 endpoint's single entity is the whole result. -/
theorem icd11_probe_order_witness :
    probeLoop [.response 404 throwingBody, .response 200 cleanBody]
      = (normalizeBody cleanBody).1 := by
  have h1 := (icd11_probe_order [HttpResult.response 200 cleanBody] []
    404 throwingBody throwingBody).2.1 (by decide)
  have h2 := (icd11_probe_order [] [] 404 cleanBody throwingBody).2.2.1 rfl
  exact h1.trans h2

/-- Claim C6: token acquisition is memoized.  Whenever a call on an empty
cache succeeds, any later call — with any credential state and any simulated
exchange, in particular one that would hand out a different token — returns
the same first-fetched token and leaves the cache unchanged. -/
theorem token_cache_memoized (creds1 creds2 : Bool) (e1 e2 : ExchangeResult)
    (t : Json) (st : Option Json)
    (h : get_token creds1 e1 none = .ok (t, st)) :
    get_token creds2 e2 st = .ok (t, st) := by
  simp only [get_token, fetch_token] at h
  obtain ⟨hst, htruthy⟩ : st = some t ∧ t.truthy = true := by
    split at h
    · simp at h
    · split at h
      · simp at h
      · split at h
        · simp at h
        · split at h
          · split at h
            · injection h with hp
              injection hp with h1 h2
              subst h1
              subst h2
              exact ⟨rfl, by assumption⟩
            · simp at h
          · simp at h
  subst hst
  simp [get_token, htruthy]

/-- Claim C6, witness: the first call fetches and caches `tokenA`; the second
call runs against an exchange that would return `tokenB` (as `fetch_token`
alone shows), yet still returns `tokenA`. -/
theorem token_cache_memoized_witness :
    get_token true exchangeA none = .ok (.str "tokenA", some (.str "tokenA"))
    ∧ get_token true exchangeB (some (.str "tokenA"))
        = .ok (.str "tokenA", some (.str "tokenA"))
    ∧ fetch_token true exchangeB = .ok (.str "tokenB", some (.str "tokenB")) :=
  ⟨rfl, token_cache_memoized true true exchangeA exchangeB _ _ rfl, rfl⟩

/-- Claim C9, counterexample: an unreadable-but-present catalog (any load
failure other than `FileNotFoundError`, e.g. a `PermissionError` from `open`)
does not produce the fallback record — it falls into `except Exception` and
leaves as `HTTPException(500)`, an error, which the claim rules out for the
unreadable case. -/
theorem namaste_unreadable_counterexample :
    search_namaste .otherError "Fever" none = .error (.httpException 500)
    ∧ search_namaste .otherError "Fever" none ≠ .ok [fallbackTerm "Fever"] := by
  refine ⟨rfl, ?_⟩
  intro hc
  rw [show search_namaste .otherError "Fever" none
      = .error (.httpException 500) from rfl] at hc
  exact Except.noConfusion hc

/-- Claim C9, amended: only a *missing* catalog file (`FileNotFoundError`)
makes `search_namaste` return exactly one fallback record whose `term` field
is the original query text, for every query and filter; an
unreadable-but-present catalog (any other load failure) instead escalates as
`HTTPException(500)`. -/
theorem namaste_fallback_missing_only (q : String) (filt : Option String) :
    search_namaste .fileNotFound q filt = .ok [fallbackTerm q]
    ∧ (fallbackTerm q).term = q
    ∧ [fallbackTerm q].length = 1
    ∧ search_namaste .otherError q filt = .error (.httpException 500) :=
  ⟨rfl, rfl, rfl, rfl⟩

/-- Claim C4: in every envelope, `status = no_results` iff `total_results = 0`
and no orchestration-level failure occurred; `status = error` iff an
orchestration-level failure occurred (never from a per-source failure, which
only empties one list); and `total_results` is always the sum of the two
result-list lengths. -/
theorem aggregate_status_invariants (q : String) (src : SearchType)
    (nout : Except PyExc (List NAMASTETerm)) (iout : Except PyExc (List ICD11Term))
    (elapsed : Nat) (fault : Option String) :
    ((search_terms q src nout iout elapsed fault).status = SearchStatus.no_results ↔
      ((search_terms q src nout iout elapsed fault).total_results = 0 ∧ fault = none))
    ∧ ((search_terms q src nout iout elapsed fault).status = SearchStatus.error ↔
        fault ≠ none)
    ∧ (search_terms q src nout iout elapsed fault).total_results =
        (search_terms q src nout iout elapsed fault).namaste_results.length +
        (search_terms q src nout iout elapsed fault).icd11_results.length := by
  cases fault with
  | some msg => simp [search_terms]
  | none =>
    by_cases h : (namasteBlock src nout).length + (icd11Block src iout).length = 0 <;>
      simp [search_terms, h]

/-- Claim C5: per-source failures are isolated under scope BOTH — a raising
remote search leaves the local results in the envelope with an empty remote
list, and a raising local search leaves the remote results with an empty
local list. -/
theorem per_source_failure_isolation (q : String) (elapsed : Nat)
    (r : List NAMASTETerm) (ri : List ICD11Term) (e e' : PyExc) :
    ((search_terms q .both (.ok r) (.error e) elapsed none).namaste_results = r
      ∧ (search_terms q .both (.ok r) (.error e) elapsed none).icd11_results = [])
    ∧ ((search_terms q .both (.error e') (.ok ri) elapsed none).icd11_results = ri
      ∧ (search_terms q .both (.error e') (.ok ri) elapsed none).namaste_results = []) := by
  refine ⟨⟨?_, ?_⟩, ?_, ?_⟩ <;> simp [search_terms, namasteBlock, icd11Block]

/-- Claim C7: a well-formed catalog record matches exactly when the lowered
query is a substring (contiguous infix) of the lowered display name and —
when a category filter is given — the lowered system string equals the
lowered filter (equality, not containment); without a filter only the
substring condition applies. -/
theorem local_match_rule (item : Json) (term system q f : String)
    (hobj : item.isObj = true)
    (hterm : item.getOr "term" (.str "") = .str term)
    (hsys : item.getOr "system" (.str "") = .str system) :
    (processItem q (some f) item =
      if (pyLower q).toList <:+: (pyLower term).toList ∧ pyLower system = pyLower f
      then .ok (some (mkNamasteTerm item term (.str system)))
      else .ok none)
    ∧ (processItem q none item =
      if (pyLower q).toList <:+: (pyLower term).toList
      then .ok (some (mkNamasteTerm item term (.str system)))
      else .ok none) := by
  cases item with
  | obj kvs =>
    constructor
    · by_cases hin : (pyLower q).toList <:+: (pyLower term).toList <;>
        by_cases heq : pyLower system = pyLower f <;>
          simp [processItem, hterm, hsys, lowerIn, hin, heq]
    · by_cases hin : (pyLower q).toList <:+: (pyLower term).toList <;>
        simp [processItem, hterm, hsys, lowerIn, hin]
  | null => simp [Json.isObj] at hobj
  | bool b => simp [Json.isObj] at hobj
  | num n => simp [Json.isObj] at hobj
  | str s => simp [Json.isObj] at hobj
  | arr l => simp [Json.isObj] at hobj

/-- Claim C7, witness: query `fev` matches the catalog record `Fever` under
filter `ayurveda` (system `Ayurveda`, case-insensitively equal), and the same
record does not match filter `Yoga`. -/
theorem local_match_rule_witness :
    processItem "fev" (some "ayurveda") feverItem
      = .ok (some (mkNamasteTerm feverItem "Fever" (.str "Ayurveda")))
    ∧ processItem "fev" (some "Yoga") feverItem = .ok none := by
  constructor
  · rw [(local_match_rule feverItem "Fever" "Ayurveda" "fev" "ayurveda" rfl rfl rfl).1,
      if_pos ⟨by decide, by decide⟩]
  · rw [(local_match_rule feverItem "Fever" "Ayurveda" "fev" "Yoga" rfl rfl rfl).1,
      if_neg (fun hc => absurd hc.2 (by decide))]

/-- Claim C8, counterexample: a record with no resolvable title but a synonym
entry whose `label` value is a plain string raises instead of being dropped
quietly — the raise aborts the entity loop, so a later record with a
perfectly resolvable title is lost from the output. -/
theorem icd11_drop_throws_counterexample :
    (resolveTitle badSynonymItem).truthy = false
    ∧ parseICD11Item badSynonymItem = .error ()
    ∧ parseICD11Item entityC = .ok (some entityCTerm)
    ∧ normalizeEntities [badSynonymItem, entityC] = ([], true)
    ∧ (normalizeEntities [badSynonymItem, entityC]).1 ≠ [entityCTerm] := by
  refine ⟨rfl, rfl, rfl, rfl, ?_⟩
  intro hc
  exact absurd (congrArg List.length hc) (by decide)

/-- Claim C8, amended: the title is resolved as the claim states (structured
object → its `@value`; else the raw `title` string, falling back to `name`
when the `title` value is absent or falsy); a record with no resolvable title
*whose synonym entries parse without raising* is dropped without an
exception; and when every record parses without raising, the records with a
resolved title are kept in endpoint order.  A record whose synonym entry has
a non-dict `label` value raises, aborting that endpoint's remaining records
(the claim's unconditional drop-without-throwing does not hold for it). -/
theorem icd11_title_resolution (item : Json) (tf : List (String × Json))
    (s : String) (ss : List Json) (items : List Json) :
    (item.get "title" = some (.obj tf) →
      resolveTitle item = (Json.obj tf).getOr "@value" (.str ""))
    ∧ (item.get "title" = some (.str s) →
      resolveTitle item = pyOr (.str s) (item.getOr "name" (.str "")))
    ∧ (item.get "title" = none →
      resolveTitle item = item.getOr "name" (.str ""))
    ∧ (item.isObj = true → (resolveTitle item).truthy = false →
       resolveSynonyms item = .ok ss → parseICD11Item item = .ok none)
    ∧ (items.all parseOk = true →
      normalizeEntities items = (items.filterMap parsedTerm, false)) := by
  refine ⟨?_, ?_, ?_, ?_, ?_⟩
  · intro h
    simp [resolveTitle, h]
  · intro h
    simp [resolveTitle, h, Json.getOr]
  · intro h
    simp [resolveTitle, h, Json.getOr, pyOr,
      show (Json.str "").truthy = false from rfl]
  · intro hobj htitle hsyn
    cases item with
    | obj kvs => simp [parseICD11Item, hsyn, htitle]
    | null => simp [Json.isObj] at hobj
    | bool b => simp [Json.isObj] at hobj
    | num n => simp [Json.isObj] at hobj
    | str s => simp [Json.isObj] at hobj
    | arr l => simp [Json.isObj] at hobj
  · induction items with
    | nil => intro _; simp [normalizeEntities]
    | cons hd tl ih =>
      intro hall
      simp only [List.all_cons, Bool.and_eq_true] at hall
      obtain ⟨hhd, htl⟩ := hall
      cases hp : parseICD11Item hd with
      | error e =>
        rw [parseOk, hp] at hhd
        simp at hhd
      | ok o =>
        cases o with
        | none => simp [normalizeEntities, hp, parsedTerm, ih htl]
        | some t => simp [normalizeEntities, hp, parsedTerm, ih htl]

/-- Claim C8, witness for the amended statement: a structured title resolves
to its `@value`; a record with neither `title` nor `name` (and no raising
synonyms) is dropped without an exception; and a two-record list parses in
order into exactly the titled record. -/
theorem icd11_title_resolution_witness :
    resolveTitle structTitleItem = .str "X"
    ∧ parseICD11Item noTitleItem = .ok none
    ∧ normalizeEntities [structTitleItem, noTitleItem] = ([c1term], false) := by
  refine ⟨?_, ?_, ?_⟩
  · exact ((icd11_title_resolution structTitleItem [("@value", .str "X")] "" []
      []).1 rfl).trans rfl
  · exact (icd11_title_resolution noTitleItem [] "" [] []).2.2.2.1 rfl rfl rfl
  · exact ((icd11_title_resolution noTitleItem [] "" []
      [structTitleItem, noTitleItem]).2.2.2.2 rfl).trans rfl

/-- Empty-query step for Claim C10: a well-formed catalog item is matched by
the empty query exactly according to the category filter. -/
theorem processItem_empty_query (filt : Option String) (item : Json)
    (hwf : nsWellFormed item = true) :
    processItem "" filt item = .ok (emptyQueryMatch filt item) := by
  cases item with
  | obj kvs =>
    simp only [nsWellFormed, Bool.and_eq_true] at hwf
    obtain ⟨⟨-, hterm⟩, hsys⟩ := hwf
    cases hterm' : (Json.obj kvs).getOr "term" (.str "") with
    | str term =>
      cases hsys' : (Json.obj kvs).getOr "system" (.str "") with
      | str system =>
        have hin : lowerIn "" term = true := by
          simp [lowerIn, pyLower]
        cases filt with
        | none => simp [processItem, emptyQueryMatch, hterm', hsys', hin]
        | some f =>
          by_cases heq : pyLower system == pyLower f <;>
            simp [processItem, emptyQueryMatch, hterm', hsys', hin, heq]
      | null => rw [hsys'] at hsys; simp [Json.isStr] at hsys
      | bool b => rw [hsys'] at hsys; simp [Json.isStr] at hsys
      | num n => rw [hsys'] at hsys; simp [Json.isStr] at hsys
      | arr l => rw [hsys'] at hsys; simp [Json.isStr] at hsys
      | obj f => rw [hsys'] at hsys; simp [Json.isStr] at hsys
    | null => rw [hterm'] at hterm; simp [Json.isStr] at hterm
    | bool b => rw [hterm'] at hterm; simp [Json.isStr] at hterm
    | num n => rw [hterm'] at hterm; simp [Json.isStr] at hterm
    | arr l => rw [hterm'] at hterm; simp [Json.isStr] at hterm
    | obj f => rw [hterm'] at hterm; simp [Json.isStr] at hterm
  | null => simp [nsWellFormed, Json.isObj] at hwf
  | bool b => simp [nsWellFormed, Json.isObj] at hwf
  | num n => simp [nsWellFormed, Json.isObj] at hwf
  | str s => simp [nsWellFormed, Json.isObj] at hwf
  | arr l => simp [nsWellFormed, Json.isObj] at hwf

/-- Empty-query loop for Claim C10: over a well-formed catalog the matching
loop returns, in catalog order, exactly the records passing the filter. -/
theorem processItems_empty_query (filt : Option String) (items : List Json)
    (hwf : items.all nsWellFormed = true) :
    processItems "" filt items = .ok (items.filterMap (emptyQueryMatch filt)) := by
  induction items with
  | nil => simp [processItems]
  | cons hd tl ih =>
    simp only [List.all_cons, Bool.and_eq_true] at hwf
    obtain ⟨hhd, htl⟩ := hwf
    cases hm : emptyQueryMatch filt hd with
    | none =>
      simp [processItems, processItem_empty_query filt hd hhd, hm, ih htl]
    | some t =>
      simp [processItems, processItem_empty_query filt hd hhd, hm, ih htl]

/-- Claim C10: the local resolver has no empty-query guard — on a well-formed
catalog the empty query matches every record, so the search returns the whole
catalog restricted to the category filter, in catalog order, whenever at
least one record passes the filter; the remote resolver, in contrast, guards
the empty query and returns `[]` with no probing. -/
theorem namaste_empty_query_full_catalog (data : Json) (items : List Json)
    (filt : Option String) (tok : Except Unit Json) (base : String)
    (net : String → HttpResult)
    (hobj : data.isObj = true)
    (hres : data.getOr "results" (.arr []) = .arr items)
    (hwf : items.all nsWellFormed = true)
    (hne : items.filterMap (emptyQueryMatch filt) ≠ []) :
    search_namaste (.ok data) "" filt = .ok (items.filterMap (emptyQueryMatch filt))
    ∧ search_icd11 "" tok base net = [] := by
  constructor
  · have hempty : (items.filterMap (emptyQueryMatch filt)).isEmpty = false := by
      cases hfm : items.filterMap (emptyQueryMatch filt) with
      | nil => exact absurd hfm hne
      | cons a l => rfl
    cases data with
    | obj kvs =>
      simp [search_namaste, search_namaste_body, hres,
        processItems_empty_query filt items hwf, hempty]
    | null => simp [Json.isObj] at hobj
    | bool b => simp [Json.isObj] at hobj
    | num n => simp [Json.isObj] at hobj
    | str s => simp [Json.isObj] at hobj
    | arr l => simp [Json.isObj] at hobj
  · simp [search_icd11]

/-- Claim C10, witness: on a two-record catalog (`Fever`/Ayurveda,
`Asana`/Yoga) the empty query with filter `ayurveda` returns exactly the
Ayurveda record. -/
theorem namaste_empty_query_full_catalog_witness :
    search_namaste (.ok twoCatalog) "" (some "ayurveda")
      = .ok [mkNamasteTerm feverItem "Fever" (.str "Ayurveda")] := by
  have h := (namaste_empty_query_full_catalog twoCatalog [feverItem, yogaItem]
    (some "ayurveda") (.error ()) "" (fun _ => .transportError)
    rfl rfl rfl
    (by intro hc; exact absurd (congrArg List.length hc) (by decide))).1
  exact h.trans rfl

end NamasteApp
